import Mathlib

set_option maxHeartbeats 1000000
set_option maxRecDepth 10000

namespace UpiCallFraud

/-! Shallow embedding of the UPI / call-fraud scoring pipeline
(`app/utils/prediction.py`, `app/utils/feature_engineering_upi.py`,
`app/utils/feature_engineering_cdr.py`, `app/utils/reason_generator.py`).
Floating-point values are modelled as rationals, pandas frames as ordered
column lists with association-list rows. -/

/-! ## Risk bucketing (prediction.py, `apply_risk_buckets`) -/

/-- Risk tier: the ordered three-level enum used by the bucketer. -/
inductive RiskLevel
  | low
  | medium
  | high
  deriving DecidableEq, Repr

/-- Numeric rank of a tier under the ordering Low < Medium < High. -/
def RiskLevel.rank : RiskLevel → Nat
  | .low => 0
  | .medium => 1
  | .high => 2

/-- Display label the source attaches to each tier
(prediction.py lines 140-146). -/
def riskLabel : RiskLevel → String
  | .high => "🔴 High"
  | .medium => "🟠 Medium"
  | .low => "🟢 Low"

/-- The `categorize` closure of `apply_risk_buckets` (prediction.py lines
140-146): High when p is at least the high threshold, else Medium when at
least the medium threshold, else Low. -/
def categorize (highThresh mediumThresh p : ℚ) : RiskLevel :=
  if p ≥ highThresh then .high
  else if p ≥ mediumThresh then .medium
  else .low

/-- Mode-specific static thresholds `(high_thresh, medium_thresh)` of
`apply_risk_buckets` (prediction.py lines 130-137); an unrecognized mode
raises ValueError. -/
def riskThresholds (mode : String) : Except String (ℚ × ℚ) :=
  if mode = "upi" then Except.ok (0.97, 0.95)
  else if mode = "cdr" then Except.ok (0.70, 0.30)
  else Except.error ("❌ Unknown mode " ++ mode ++ " — expected upi or cdr")

/-- Shallow embedding of `apply_risk_buckets` (prediction.py lines 120-161):
one tier label per probability, via mode-specific static thresholds. The
diagnostic side effect (overwriting outputs/last_thresholds.yaml) is not
modelled: it is write-only and read by no component. -/
def apply_risk_buckets (probabilities : List ℚ) (mode : String) :
    Except String (List String) :=
  match riskThresholds mode with
  | Except.error e => Except.error e
  | Except.ok (hi, med) =>
      Except.ok (probabilities.map (fun p => riskLabel (categorize hi med p)))

/-! ## Batch normalization (prediction.py, `normalize_probabilities`) -/

/-- Scalar `np.allclose` with numpy's default tolerances:
`|a - b| <= atol + rtol * |b|` with `atol = 1e-8`, `rtol = 1e-5`. -/
def npAllClose (a b : ℚ) : Bool :=
  |a - b| ≤ (1e-8 : ℚ) + (1e-5 : ℚ) * |b|

/-- `np.min` over a batch (the source never normalizes an empty batch; the
empty case is given the junk value 0). -/
def npMin : List ℚ → ℚ
  | [] => 0
  | p :: rest => rest.foldl min p

/-- `np.max` over a batch (empty case as in `npMin`). -/
def npMax : List ℚ → ℚ
  | [] => 0
  | p :: rest => rest.foldl max p

/-- Shallow embedding of `normalize_probabilities` (prediction.py lines
52-57): all zeros when min and max are `np.allclose`, otherwise min-max
scaling. -/
def normalize_probabilities (probs : List ℚ) : List ℚ :=
  if npAllClose (npMin probs) (npMax probs) then probs.map (fun _ => 0)
  else probs.map (fun p => (p - npMin probs) / (npMax probs - npMin probs))

/-! ## Supervised ensemble scoring (prediction.py, `predict_supervised`) -/

/-- Abstract trained artifacts used by the supervised path: each classifier
is a black-box map from one feature row to its positive-class probability
(`predict_proba(X)[:, 1]`), and `scaler_lr` the meta-refiner's paired
feature transform. -/
structure ModelBundle where
  xgb : List ℚ → ℚ
  rf : List ℚ → ℚ
  lr : List ℚ → ℚ
  scaler_lr : List ℚ → List ℚ

/-- Shallow embedding of `predict_supervised` (prediction.py lines 62-92)
after feature reconstruction: `X` stands for the feature matrix produced by
`prepare_upi_features` / `prepare_cdr_features` for the requested mode
(both reconstructors are modelled below). -/
def predict_supervised (models : ModelBundle) (X : List (List ℚ))
    (normalize : Bool) : List ℚ :=
  let p_xgb := X.map models.xgb
  let p_rf := X.map models.rf
  let ensemble_score := List.zipWith (fun a b => a * 0.6 + b * 0.4) p_xgb p_rf
  let p_meta := (X.map models.scaler_lr).map models.lr
  let p_final := List.zipWith (fun e m => e * 0.5 + m * 0.5) ensemble_score p_meta
  if normalize then normalize_probabilities p_final else p_final

/-! ## Ensemble loading (prediction.py, `load_models`) -/

/-- The eight artifact paths one domain's entry of config/model_paths.yaml
declares, keyed by role. -/
structure ModelPaths where
  xgb : String
  rf : String
  lr_meta : String
  iso : String
  ae : String
  scaler_lr : String
  scaler_iso : String
  scaler_ae : String

/-- The declared paths in the order `abs_paths.values()` yields them. -/
def ModelPaths.pathList (p : ModelPaths) : List String :=
  [p.xgb, p.rf, p.lr_meta, p.iso, p.ae, p.scaler_lr, p.scaler_iso, p.scaler_ae]

/-- Shallow embedding of `load_models` (prediction.py lines 12-47).
`configPresent` states whether config/model_paths.yaml exists, `fsOK`
whether a given artifact path exists on disk; loading an artifact is
abstracted as tagging its role key with its path. -/
def load_models (configPresent : Bool) (fsOK : String → Bool)
    (paths : ModelPaths) : Except String (List (String × String)) :=
  if !configPresent then Except.error "❌ Config file not found"
  else
    let missing := paths.pathList.filter (fun p => !(fsOK p))
    if missing.isEmpty then
      Except.ok
        [("xgb", paths.xgb), ("rf", paths.rf), ("lr", paths.lr_meta),
         ("iso", paths.iso), ("ae", paths.ae), ("scaler_lr", paths.scaler_lr),
         ("scaler_iso", paths.scaler_iso), ("scaler_ae", paths.scaler_ae)]
    else
      Except.error ("⚠️ Missing model files:\n" ++ String.intercalate "\n" missing)

/-! ## CDR feature reconstruction (feature_engineering_cdr.py) -/

/-- Scalar cell of a raw table: a numeric value (anything `pd.to_numeric`
parses, numeric text included), non-numeric text, or a missing value (NaN). -/
inductive Val
  | num (q : ℚ)
  | str (s : String)
  | na
  deriving DecidableEq, Repr

/-- Column lookup in one association-list row (uploaded tables have unique
column names, so the first occurrence is the column). -/
def getCol (r : List (String × Val)) (c : String) : Option Val :=
  (r.find? (fun p => p.1 == c)).map (fun p => p.2)

/-- Numeric coercion of one cell as the source performs it
(feature_engineering_cdr.py lines 27-30): a missing column is first created
with the default, then `pd.to_numeric(errors="coerce").fillna(default)`
turns NaN or non-numeric text into the default. -/
def coerceNum (v : Option Val) (d : ℚ) : ℚ :=
  match v with
  | some (Val.num q) => q
  | some (Val.str _) => d
  | some Val.na => d
  | none => d

/-- `Series.clip(lower, upper)` on one value. -/
def clip (lo hi x : ℚ) : ℚ := min hi (max lo x)

/-- The text `astype(str)` yields for one cell: text stays itself, a number
prints as its decimal form (never one of the call-type category words), NaN
prints as "nan". -/
def cellText : Val → String
  | Val.str s => s
  | Val.num q => toString q
  | Val.na => "nan"

/-- Cleaned call-type of one row (feature_engineering_cdr.py lines 54-60):
a missing call_type column is first set to the empty string, then the cell
goes through `astype(str).fillna("").str.lower().str.strip()`. -/
def cleanCallType (r : List (String × Val)) : String :=
  (cellText ((getCol r "call_type").getD (Val.str ""))).toLower.trim

/-- Canonical CDR feature schema, fixed inline
(feature_engineering_cdr.py lines 188-192). -/
def cdrFinalCols : List String :=
  ["call_duration", "call_cost", "cost_per_sec", "call_hour",
   "distinct_callees_last_24h", "tower_switch_rate",
   "repeated_short_calls_last_1h",
   "type_VoIP", "type_international", "type_roaming", "type_voice"]

/-- The seven numeric CDR columns with their per-column defaults
(feature_engineering_cdr.py lines 134-142): every default is 0.0. -/
def cdrNumericCols : List (String × ℚ) :=
  [("call_duration", 0), ("call_cost", 0), ("cost_per_sec", 0),
   ("call_hour", 0), ("distinct_callees_last_24h", 0),
   ("tower_switch_rate", 0), ("repeated_short_calls_last_1h", 0)]

/-- One output row of `prepare_cdr_features`: the seven coerced numeric
columns (call_hour clipped to 0..23) followed by the four call-type
indicators, each 1 exactly when the cleaned call_type equals its category
(the lowercase `get_dummies` column renamed to the training-case name).
The final `out.fillna(0.0)` is a no-op here: every cell is already numeric. -/
def cdrRow (r : List (String × Val)) : List (String × Val) :=
  let t := cleanCallType r
  [("call_duration", Val.num (coerceNum (getCol r "call_duration") 0)),
   ("call_cost", Val.num (coerceNum (getCol r "call_cost") 0)),
   ("cost_per_sec", Val.num (coerceNum (getCol r "cost_per_sec") 0)),
   ("call_hour", Val.num (clip 0 23 (coerceNum (getCol r "call_hour") 0))),
   ("distinct_callees_last_24h",
      Val.num (coerceNum (getCol r "distinct_callees_last_24h") 0)),
   ("tower_switch_rate", Val.num (coerceNum (getCol r "tower_switch_rate") 0)),
   ("repeated_short_calls_last_1h",
      Val.num (coerceNum (getCol r "repeated_short_calls_last_1h") 0)),
   ("type_VoIP", Val.num (if t = "voip" then 1 else 0)),
   ("type_international", Val.num (if t = "international" then 1 else 0)),
   ("type_roaming", Val.num (if t = "roaming" then 1 else 0)),
   ("type_voice", Val.num (if t = "voice" then 1 else 0))]

/-- A pandas frame: ordered column list plus one association row per record. -/
structure DF where
  cols : List String
  rows : List (List (String × Val))

/-- Shallow embedding of `prepare_cdr_features`
(feature_engineering_cdr.py lines 118-206): a fresh frame with exactly the
eleven canonical columns, each row rebuilt by `cdrRow`. It is total: the
schema is fixed inline and every malformed cell is coerced, never raised on. -/
def prepare_cdr_features (df : DF) : DF :=
  { cols := cdrFinalCols, rows := df.rows.map cdrRow }

/-! ## UPI feature reconstruction (feature_engineering_upi.py), modelled at
column level: every step of the source either keeps, appends, drops or
reorders columns, and the claims about it concern the column list. -/

/-- Names of the five transaction-type indicator columns
(feature_engineering_upi.py line 53). -/
def expected_types : List String :=
  ["type_CASH_IN", "type_CASH_OUT", "type_DEBIT", "type_PAYMENT", "type_TRANSFER"]

/-- Placeholder engineered feature names
(feature_engineering_upi.py lines 69-78). -/
def placeholder_cols : List String :=
  ["sender_amount_mean", "sender_amount_std", "sender_amount_max",
   "sender_tx_count", "sender_balance_mismatch_ratio", "sender_zero_but_ratio",
   "dest_amount_mean", "dest_amount_std", "dest_tx_count", "dest_zero_but_ratio",
   "tx_per_step_orig", "amount_per_step_orig", "avg_amount_per_step_orig",
   "balance_gap_ratio", "relative_amount_to_mean_sender",
   "amount_to_balance_orig_ratio", "amount_balance_gap", "is_large_transfer",
   "is_same_sender_receiver", "is_merchant_dest", "is_customer_dest",
   "amount_to_sender_mean_ratio", "amount_to_balance_gap_ratio",
   "sender_activity_intensity", "type_encoded"]

/-- Column effect of a pandas assignment `df[c] = ...`: an existing column
is overwritten in place, a new one is appended at the end. -/
def addCol (cols : List String) (c : String) : List String :=
  if c ∈ cols then cols else cols ++ [c]

/-- Column effect of `df.drop(columns=toDrop, errors="ignore")`. -/
def dropCols (cols toDrop : List String) : List String :=
  cols.filter (fun c => c ∉ toDrop)

/-- The derived-feature assignments of feature_engineering_upi.py lines
23-48, in order: each `(prerequisites, name)` runs `df[name] = ...` when all
prerequisite columns are present (the `issubset(df.columns)` guards). -/
def derivedRules : List (List String × String) :=
  [(["amount"], "amount_log"),
   (["oldbalanceOrg", "newbalanceOrig"], "orig_balance_change"),
   (["newbalanceDest", "oldbalanceDest"], "dest_balance_change"),
   (["orig_balance_change", "amount"], "balance_mismatch_orig"),
   (["dest_balance_change", "amount"], "balance_mismatch_dest"),
   (["oldbalanceOrg", "amount"], "orig_zero_but_amount"),
   (["oldbalanceDest", "amount"], "dest_zero_but_amount"),
   (["newbalanceOrig", "oldbalanceOrg"], "orig_balance_ratio"),
   (["newbalanceDest", "oldbalanceDest"], "dest_balance_ratio")]

/-- One derived-feature step at column level. -/
def applyRule (cols : List String) (rule : List String × String) : List String :=
  if rule.1.all (fun c => cols.contains c) then addCol cols rule.2 else cols

/-- Column effect of the transaction-type dummy step
(feature_engineering_upi.py lines 55-64): with a "type" column present,
`pd.concat([df, dummies[expected_types]], axis=1)` appends the five
indicator columns — duplicating any indicator the frame already carries;
without one, each missing indicator is appended once. -/
def typeDummyStep (cols : List String) : List String :=
  if "type" ∈ cols then cols ++ expected_types
  else expected_types.foldl addCol cols

/-- Column effect of `df[sel]`: each selected label picks every column
bearing it (pandas keeps duplicate labels, returning all occurrences). -/
def selectCols (cols sel : List String) : List String :=
  (sel.map (fun c => List.replicate (cols.count c) c)).flatten

/-- Steps 1-5 of `prepare_upi_features` at column level, given the training
order read from feature_order.yaml: drop label columns, derive
cross-features, reconcile type dummies, add placeholders, drop raw
identifier columns, add any training column still missing, then reindex
with `df[training_order]`. -/
def upiCols (cols trainingOrder : List String) : List String :=
  let c1 := dropCols cols ["isFraud", "isFlaggedFraud"]
  let c2 := derivedRules.foldl applyRule c1
  let c3 := typeDummyStep c2
  let c4 := placeholder_cols.foldl addCol c3
  let c5 := dropCols c4 ["step", "nameOrig", "nameDest", "type"]
  let c6 := trainingOrder.foldl addCol c5
  selectCols c6 trainingOrder

/-- Shallow embedding of `prepare_upi_features` at column level
(feature_engineering_upi.py lines 7-113): `schema` holds the upi_features
list of feature_order.yaml when that file exists and `none` when it is
absent, in which case the function raises FileNotFoundError (lines 96-97).
The pure column transformations cannot fail, so checking the schema first
is observably the same as the source's order. -/
def prepare_upi_features (cols : List String) (schema : Option (List String)) :
    Except String (List String) :=
  match schema with
  | none => Except.error "❌ feature_order.yaml not found"
  | some trainingOrder => Except.ok (upiCols cols trainingOrder)

/-! ## Reason generation (reason_generator.py, `generate_reason`) -/

/-- `row.get(key, 0)` on one record row: a missing key reads as 0. -/
def rowGet (r : List (String × ℚ)) (k : String) : ℚ :=
  ((r.find? (fun p => p.1 == k)).map (fun p => p.2)).getD 0

/-- UPI clause list of `generate_reason` (reason_generator.py lines 20-60):
matched clauses in declared predicate order — the two amount clauses form
an if/elif pair — with the fixed fallback when none match. -/
def upiReasons (r : List (String × ℚ)) : List String :=
  let l1 :=
    if rowGet r "amount_log" > 11.5 then ["Unusually large transaction amount"]
    else if rowGet r "amount_log" > 10.5 then
      ["Higher-than-average transaction amount"]
    else []
  let l2 :=
    if rowGet r "balance_mismatch_orig" = 1 then
      ["Mismatch in sender balance update"] else []
  let l3 :=
    if rowGet r "balance_mismatch_dest" = 1 then
      ["Mismatch in receiver balance update"] else []
  let l4 :=
    if rowGet r "orig_zero_but_amount" = 1 then
      ["Transfer initiated from zero balance account"] else []
  let l5 :=
    if rowGet r "dest_zero_but_amount" = 1 then
      ["Receiver had zero balance before transfer"] else []
  let l6 :=
    if rowGet r "sender_tx_count" > 100 then
      ["Unusually high sender activity volume"] else []
  let l7 :=
    if rowGet r "sender_amount_std" > 500000 then
      ["High variation in sender’s transaction amounts"] else []
  let l8 :=
    if rowGet r "relative_amount_to_mean_sender" > 5 then
      ["Amount deviates sharply from sender’s usual pattern"] else []
  let l9 :=
    if rowGet r "balance_gap_ratio" > 0.8 then
      ["Large balance fluctuation detected"] else []
  let l10 :=
    if rowGet r "is_same_sender_receiver" = 1 then
      ["Sender and receiver accounts are identical"] else []
  let l11 :=
    if rowGet r "is_large_transfer" = 1 then
      ["Marked as large-value transfer"] else []
  let all := l1 ++ l2 ++ l3 ++ l4 ++ l5 ++ l6 ++ l7 ++ l8 ++ l9 ++ l10 ++ l11
  if all.isEmpty then ["Transaction shows irregular account or balance behavior"]
  else all

/-- CDR clause list of `generate_reason` (reason_generator.py lines 66-82):
matched clauses in declared predicate order, with the fixed fallback when
none match. -/
def cdrReasons (r : List (String × ℚ)) : List String :=
  let l1 :=
    if rowGet r "call_duration" < 5 then ["Very short call duration pattern"]
    else []
  let l2 :=
    if rowGet r "tower_switch_rate" > 0.6 then
      ["High tower switching frequency detected"] else []
  let l3 :=
    if rowGet r "repeated_short_calls_last_1h" > 3 then
      ["Repeated short-duration calls within an hour"] else []
  let l4 :=
    if rowGet r "distinct_callees_last_24h" > 50 then
      ["Abnormally high number of distinct callees"] else []
  let l5 :=
    if rowGet r "is_international" = 1 then ["International call detected"]
    else []
  let l6 :=
    if rowGet r "call_cost" > 200 then
      ["High call cost relative to duration"] else []
  let l7 :=
    if rowGet r "tower_switch_rate" > 0.9 then
      ["Extreme cell tower switching, potential SIM-box activity"] else []
  let all := l1 ++ l2 ++ l3 ++ l4 ++ l5 ++ l6 ++ l7
  if all.isEmpty then ["Normal call pattern detected"] else all

/-- Matched clause list for a row: the UPI branch runs for mode "upi", the
CDR branch for every other mode (the source's else). -/
def reasonList (r : List (String × ℚ)) (mode : String) : List String :=
  if mode = "upi" then upiReasons r else cdrReasons r

/-- Shallow embedding of `generate_reason` (reason_generator.py lines 3-85):
the first four matched clauses joined with " + ". -/
def generate_reason (r : List (String × ℚ)) (mode : String) : String :=
  String.intercalate " + " ((reasonList r mode).take 4)

/-! ## Helper lemmas -/

lemma categorize_eq_iff (hi med p : ℚ) (hm : med < hi) :
    (categorize hi med p = .high ↔ hi ≤ p)
      ∧ (categorize hi med p = .medium ↔ med ≤ p ∧ p < hi)
      ∧ (categorize hi med p = .low ↔ p < med) := by
  by_cases h1 : hi ≤ p
  · have h2 : med ≤ p := le_trans hm.le h1
    rw [categorize, if_pos h1]
    refine ⟨by simp [h1], by simp [not_lt.mpr h1], by simp [not_lt.mpr h2]⟩
  · by_cases h2 : med ≤ p
    · rw [categorize, if_neg h1, if_pos h2]
      refine ⟨by simp [h1], by simp [h2, not_le.mp h1], by simp [not_lt.mpr h2]⟩
    · rw [categorize, if_neg h1, if_neg h2]
      refine ⟨by simp [h1], by simp [h2], by simp [not_le.mp h2]⟩

lemma categorize_rank_mono (hi med : ℚ) {p1 p2 : ℚ} (h : p1 ≤ p2) :
    (categorize hi med p1).rank ≤ (categorize hi med p2).rank := by
  unfold categorize
  by_cases h1 : hi ≤ p1
  · rw [if_pos h1, if_pos (le_trans h1 h)]
  · by_cases h2 : med ≤ p1
    · rw [if_neg h1, if_pos h2]
      by_cases h3 : hi ≤ p2
      · rw [if_pos h3]
        exact Nat.le_succ 1
      · rw [if_neg h3, if_pos (le_trans h2 h)]
    · rw [if_neg h1, if_neg h2]
      exact Nat.zero_le _

lemma foldl_min_le_init (l : List ℚ) (a : ℚ) : l.foldl min a ≤ a := by
  induction l generalizing a with
  | nil => exact le_refl a
  | cons x t ih => exact le_trans (ih (min a x)) (min_le_left a x)

lemma foldl_min_le_mem (l : List ℚ) (a x : ℚ) (hx : x ∈ l) : l.foldl min a ≤ x := by
  induction l generalizing a with
  | nil => cases hx
  | cons y t ih =>
    rcases List.mem_cons.mp hx with rfl | h
    · exact le_trans (foldl_min_le_init t (min a x)) (min_le_right a x)
    · exact ih (min a y) h

lemma foldl_min_mem_or (l : List ℚ) (a : ℚ) : l.foldl min a = a ∨ l.foldl min a ∈ l := by
  induction l generalizing a with
  | nil => exact Or.inl rfl
  | cons y t ih =>
    rcases ih (min a y) with h | h
    · rcases min_choice a y with h2 | h2
      · exact Or.inl (by rw [List.foldl_cons, h, h2])
      · exact Or.inr (by rw [List.foldl_cons, h, h2]; exact List.mem_cons_self y t)
    · exact Or.inr (List.mem_cons_of_mem y h)

lemma init_le_foldl_max (l : List ℚ) (a : ℚ) : a ≤ l.foldl max a := by
  induction l generalizing a with
  | nil => exact le_refl a
  | cons x t ih => exact le_trans (le_max_left a x) (ih (max a x))

lemma mem_le_foldl_max (l : List ℚ) (a x : ℚ) (hx : x ∈ l) : x ≤ l.foldl max a := by
  induction l generalizing a with
  | nil => cases hx
  | cons y t ih =>
    rcases List.mem_cons.mp hx with rfl | h
    · exact le_trans (le_max_right a x) (init_le_foldl_max t (max a x))
    · exact ih (max a y) h

lemma foldl_max_mem_or (l : List ℚ) (a : ℚ) : l.foldl max a = a ∨ l.foldl max a ∈ l := by
  induction l generalizing a with
  | nil => exact Or.inl rfl
  | cons y t ih =>
    rcases ih (max a y) with h | h
    · rcases max_choice a y with h2 | h2
      · exact Or.inl (by rw [List.foldl_cons, h, h2])
      · exact Or.inr (by rw [List.foldl_cons, h, h2]; exact List.mem_cons_self y t)
    · exact Or.inr (List.mem_cons_of_mem y h)

lemma npMin_mem {ps : List ℚ} (h : ps ≠ []) : npMin ps ∈ ps := by
  cases ps with
  | nil => exact absurd rfl h
  | cons a t =>
    rcases foldl_min_mem_or t a with h2 | h2
    · rw [npMin, h2]
      exact List.mem_cons_self a t
    · exact List.mem_cons_of_mem a h2

lemma npMax_mem {ps : List ℚ} (h : ps ≠ []) : npMax ps ∈ ps := by
  cases ps with
  | nil => exact absurd rfl h
  | cons a t =>
    rcases foldl_max_mem_or t a with h2 | h2
    · rw [npMax, h2]
      exact List.mem_cons_self a t
    · exact List.mem_cons_of_mem a h2

lemma npMin_le {ps : List ℚ} {x : ℚ} (hx : x ∈ ps) : npMin ps ≤ x := by
  cases ps with
  | nil => cases hx
  | cons a t =>
    rcases List.mem_cons.mp hx with rfl | h
    · exact foldl_min_le_init t x
    · exact foldl_min_le_mem t a x h

lemma le_npMax {ps : List ℚ} {x : ℚ} (hx : x ∈ ps) : x ≤ npMax ps := by
  cases ps with
  | nil => cases hx
  | cons a t =>
    rcases List.mem_cons.mp hx with rfl | h
    · exact init_le_foldl_max t x
    · exact mem_le_foldl_max t a x h

lemma npAllClose_self (a : ℚ) : npAllClose a a = true := by
  simp only [npAllClose, decide_eq_true_eq, sub_self, abs_zero]
  positivity

/-! ## Theorems about the claims -/

/-- C1: with normalization disabled, `predict_supervised` returns, per row,
0.5*(0.6*p_xgb + 0.4*p_rf) + 0.5*p_meta, where p_xgb and p_rf are the two
primary classifiers' probabilities on the reconstructed feature matrix and
p_meta the meta-refiner's probability on the same matrix transformed by its
paired scaler. The equality is exact over ℚ, hence within any tolerance. -/
theorem predict_supervised_blend (models : ModelBundle) (X : List (List ℚ)) :
    predict_supervised models X false =
      X.map (fun row =>
        0.5 * (0.6 * models.xgb row + 0.4 * models.rf row)
          + 0.5 * models.lr (models.scaler_lr row)) := by
  induction X with
  | nil => rfl
  | cons r t ih =>
    simp only [predict_supervised, List.map_cons, List.zipWith_cons_cons,
      Bool.false_eq_true, if_false] at ih ⊢
    exact congrArg₂ List.cons (by ring) ih

/-- C3: `apply_risk_buckets` assigns one tier label per probability from the
enum Low/Medium/High via inclusive static cutoffs — UPI High iff p ≥ 0.97,
Medium iff 0.95 ≤ p < 0.97, else Low; CDR High iff p ≥ 0.70, Medium iff
0.30 ≤ p < 0.70, else Low — and in particular 0.96 is Medium, 0.97 High and
0.949999 Low for UPI. -/
theorem apply_risk_buckets_cutoffs :
    (∀ probs : List ℚ, apply_risk_buckets probs "upi"
        = Except.ok (probs.map (fun p => riskLabel (categorize 0.97 0.95 p)))) ∧
    (∀ probs : List ℚ, apply_risk_buckets probs "cdr"
        = Except.ok (probs.map (fun p => riskLabel (categorize 0.70 0.30 p)))) ∧
    (∀ p : ℚ, (categorize 0.97 0.95 p = .high ↔ 0.97 ≤ p)
      ∧ (categorize 0.97 0.95 p = .medium ↔ 0.95 ≤ p ∧ p < 0.97)
      ∧ (categorize 0.97 0.95 p = .low ↔ p < 0.95)) ∧
    (∀ p : ℚ, (categorize 0.70 0.30 p = .high ↔ 0.70 ≤ p)
      ∧ (categorize 0.70 0.30 p = .medium ↔ 0.30 ≤ p ∧ p < 0.70)
      ∧ (categorize 0.70 0.30 p = .low ↔ p < 0.30)) ∧
    categorize 0.97 0.95 0.96 = .medium ∧ categorize 0.97 0.95 0.97 = .high
      ∧ categorize 0.97 0.95 0.949999 = .low := by
  refine ⟨fun probs => rfl, fun probs => rfl,
    fun p => categorize_eq_iff 0.97 0.95 p (by norm_num),
    fun p => categorize_eq_iff 0.70 0.30 p (by norm_num),
    by with_unfolding_all decide, by with_unfolding_all decide,
    by with_unfolding_all decide⟩

/-- C8: for both domains the bucketer is monotone — p1 < p2 implies
bucket(p1) ≤ bucket(p2) under Low < Medium < High — and a probability
exactly at a cutoff lands in the higher tier. -/
theorem risk_bucket_monotone :
    (∀ p1 p2 : ℚ, p1 < p2 →
        (categorize 0.97 0.95 p1).rank ≤ (categorize 0.97 0.95 p2).rank) ∧
    (∀ p1 p2 : ℚ, p1 < p2 →
        (categorize 0.70 0.30 p1).rank ≤ (categorize 0.70 0.30 p2).rank) ∧
    categorize 0.97 0.95 0.97 = .high ∧ categorize 0.97 0.95 0.95 = .medium
      ∧ categorize 0.70 0.30 0.70 = .high ∧ categorize 0.70 0.30 0.30 = .medium :=
  ⟨fun _ _ h => categorize_rank_mono _ _ h.le,
   fun _ _ h => categorize_rank_mono _ _ h.le,
   by with_unfolding_all decide, by with_unfolding_all decide,
   by with_unfolding_all decide, by with_unfolding_all decide⟩

/-- Witness for C8 at concrete probabilities 0.5 < 0.96 in the UPI domain. -/
theorem risk_bucket_monotone_witness :
    (categorize 0.97 0.95 0.5).rank ≤ (categorize 0.97 0.95 0.96).rank :=
  risk_bucket_monotone.1 0.5 0.96 (by norm_num)

/-- C4 counterexample: the batch [0, 1e-9] has distinct minimum and maximum,
yet `normalize_probabilities` returns all zeros — `np.allclose(min, max)`
holds at tolerance 1e-8 + 1e-5*|max| — instead of the min-max scaling
(whose value here would be [0, 1]). -/
theorem normalize_probabilities_tolerance_cex :
    npMin [0, (1e-9 : ℚ)] ≠ npMax [0, (1e-9 : ℚ)]
      ∧ normalize_probabilities [0, (1e-9 : ℚ)] = [0, 0]
      ∧ normalize_probabilities [0, (1e-9 : ℚ)]
          ≠ [0, (1e-9 : ℚ)].map (fun p =>
              (p - npMin [0, (1e-9 : ℚ)])
                / (npMax [0, (1e-9 : ℚ)] - npMin [0, (1e-9 : ℚ)])) :=
  ⟨by with_unfolding_all decide, by with_unfolding_all decide,
   by with_unfolding_all decide⟩

/-- C4 as amended: an all-equal batch (single rows included) normalizes to
all zeros of the same length, and a batch whose minimum and maximum differ
by more than the allclose tolerance is min-max scaled per element, every
output lying in [0,1] with 0 and 1 attained (at the minimum and maximum). -/
theorem normalize_probabilities_minmax :
    (∀ (c : ℚ) (ps : List ℚ), (∀ x ∈ ps, x = c) →
        normalize_probabilities ps = ps.map (fun _ => 0)) ∧
    (∀ ps : List ℚ, npAllClose (npMin ps) (npMax ps) = false →
        normalize_probabilities ps
            = ps.map (fun p => (p - npMin ps) / (npMax ps - npMin ps))
          ∧ (∀ y ∈ normalize_probabilities ps, 0 ≤ y ∧ y ≤ 1)
          ∧ 0 ∈ normalize_probabilities ps ∧ 1 ∈ normalize_probabilities ps) := by
  constructor
  · intro c ps hall
    cases ps with
    | nil => simp [normalize_probabilities]
    | cons a t =>
      have hmin : npMin (a :: t) = c := hall _ (npMin_mem (List.cons_ne_nil a t))
      have hmax : npMax (a :: t) = c := hall _ (npMax_mem (List.cons_ne_nil a t))
      rw [normalize_probabilities, hmin, hmax, if_pos (npAllClose_self c)]
  · intro ps hfalse
    have hne : ps ≠ [] := by
      intro h
      rw [h] at hfalse
      rw [show npMin ([] : List ℚ) = 0 from rfl,
        show npMax ([] : List ℚ) = 0 from rfl, npAllClose_self] at hfalse
      cases hfalse
    have hmm : npMin ps ≤ npMax ps := npMin_le (npMax_mem hne)
    have hlt : npMin ps < npMax ps := by
      rcases lt_or_eq_of_le hmm with h | h
      · exact h
      · rw [h, npAllClose_self] at hfalse
        cases hfalse
    have hpos : (0 : ℚ) < npMax ps - npMin ps := sub_pos.mpr hlt
    have heq : normalize_probabilities ps
        = ps.map (fun p => (p - npMin ps) / (npMax ps - npMin ps)) := by
      rw [normalize_probabilities, if_neg]
      rw [hfalse]
      exact Bool.false_ne_true
    refine ⟨heq, ?_, ?_, ?_⟩
    · intro y hy
      rw [heq] at hy
      rcases List.mem_map.mp hy with ⟨x, hx, rfl⟩
      exact ⟨div_nonneg (sub_nonneg.mpr (npMin_le hx)) hpos.le,
        (div_le_one hpos).mpr (sub_le_sub_right (le_npMax hx) _)⟩
    · rw [heq]
      exact List.mem_map.mpr ⟨npMin ps, npMin_mem hne, by rw [sub_self, zero_div]⟩
    · rw [heq]
      exact List.mem_map.mpr ⟨npMax ps, npMax_mem hne, div_self hpos.ne'⟩

/-- Witness for C4: the all-equal singleton batch [0.4] normalizes to [0],
and the spread batch [0, 0.5] is min-max scaled to [0, 1]. -/
theorem normalize_probabilities_minmax_witness :
    normalize_probabilities [(0.4 : ℚ)] = [0]
      ∧ normalize_probabilities [(0 : ℚ), 0.5]
          = [(0 : ℚ), 0.5].map (fun p =>
              (p - npMin [(0 : ℚ), 0.5]) / (npMax [(0 : ℚ), 0.5] - npMin [(0 : ℚ), 0.5])) :=
  ⟨normalize_probabilities_minmax.1 0.4 [0.4] (by intro x hx; simpa using hx),
   (normalize_probabilities_minmax.2 [0, 0.5] (by with_unfolding_all decide)).1⟩

/-- C5: with the config file present, any missing artifact path makes
`load_models` fail with a message listing every missing path — never a
partial bundle — and a successful return implies every declared path exists
and the bundle carries all eight roles. -/
theorem load_models_all_or_nothing :
    (∀ (fsOK : String → Bool) (paths : ModelPaths),
        (∃ p ∈ paths.pathList, fsOK p = false) →
          load_models true fsOK paths
              = Except.error ("⚠️ Missing model files:\n"
                  ++ String.intercalate "\n"
                      (paths.pathList.filter (fun p => !(fsOK p))))
            ∧ ∀ p ∈ paths.pathList, fsOK p = false →
                p ∈ paths.pathList.filter (fun q => !(fsOK q))) ∧
    (∀ (fsOK : String → Bool) (paths : ModelPaths)
        (bundle : List (String × String)),
        load_models true fsOK paths = Except.ok bundle →
          (∀ p ∈ paths.pathList, fsOK p = true)
            ∧ bundle.map Prod.fst
                = ["xgb", "rf", "lr", "iso", "ae", "scaler_lr", "scaler_iso",
                   "scaler_ae"]) := by
  constructor
  · intro fsOK paths h
    rcases h with ⟨p, hp, hfp⟩
    have hmem : p ∈ paths.pathList.filter (fun q => !(fsOK q)) :=
      List.mem_filter.mpr ⟨hp, by rw [hfp]; rfl⟩
    have hne : paths.pathList.filter (fun q => !(fsOK q)) ≠ [] :=
      List.ne_nil_of_mem hmem
    constructor
    · rw [load_models]
      simp only [Bool.not_true, Bool.false_eq_true, if_false]
      rw [if_neg]
      intro habs
      exact hne (List.isEmpty_iff.mp habs)
    · intro q hq hfq
      exact List.mem_filter.mpr ⟨hq, by rw [hfq]; rfl⟩
  · intro fsOK paths bundle h
    rw [load_models] at h
    simp only [Bool.not_true, Bool.false_eq_true, if_false] at h
    by_cases hempt : (paths.pathList.filter (fun q => !(fsOK q))).isEmpty
    · rw [if_pos hempt] at h
      have hnil : paths.pathList.filter (fun q => !(fsOK q)) = [] :=
        List.isEmpty_iff.mp hempt
      have hall : ∀ p ∈ paths.pathList, fsOK p = true := by
        intro p hp
        by_contra hcon
        have : p ∈ paths.pathList.filter (fun q => !(fsOK q)) :=
          List.mem_filter.mpr ⟨hp, by rw [Bool.not_eq_true] at hcon; rw [hcon]; rfl⟩
        rw [hnil] at this
        cases this
      refine ⟨hall, ?_⟩
      cases h
      rfl
    · rw [if_neg hempt] at h
      cases h

/-- Concrete witness for C5: a bundle whose rf artifact is absent fails
naming exactly that path. -/
theorem load_models_all_or_nothing_witness :
    load_models true (fun p => !(p == "models/upi/rf.pkl"))
        { xgb := "models/upi/xgb.pkl", rf := "models/upi/rf.pkl",
          lr_meta := "models/upi/lr_meta.pkl", iso := "models/upi/iso.pkl",
          ae := "models/upi/ae.keras", scaler_lr := "models/upi/scaler_lr.pkl",
          scaler_iso := "models/upi/scaler_iso.pkl",
          scaler_ae := "models/upi/scaler_ae.pkl" }
      = Except.error "⚠️ Missing model files:\nmodels/upi/rf.pkl" := by
  have h := (load_models_all_or_nothing.1 (fun p => !(p == "models/upi/rf.pkl"))
    { xgb := "models/upi/xgb.pkl", rf := "models/upi/rf.pkl",
      lr_meta := "models/upi/lr_meta.pkl", iso := "models/upi/iso.pkl",
      ae := "models/upi/ae.keras", scaler_lr := "models/upi/scaler_lr.pkl",
      scaler_iso := "models/upi/scaler_iso.pkl",
      scaler_ae := "models/upi/scaler_ae.pkl" }
    ⟨"models/upi/rf.pkl", by decide, by decide⟩).1
  rw [h]
  with_unfolding_all rfl

/-- The CDR example row of the spec: call_duration 2, tower_switch_rate
0.95, repeated_short_calls_last_1h 5, distinct_callees_last_24h 70. -/
def exampleCdrRow : List (String × ℚ) :=
  [("call_duration", 2), ("tower_switch_rate", 0.95),
   ("repeated_short_calls_last_1h", 5), ("distinct_callees_last_24h", 70)]

/-- C6: `generate_reason` is deterministic (rows reading equal under
`row.get` give equal strings), emits the first at most four matched clauses
joined by " + " in declared predicate order, falls back to the fixed
domain text when no predicate matches, and on the spec's CDR example yields
exactly the four expected clauses with the fifth (extreme tower switching)
truncated away. -/
theorem generate_reason_first_four :
    (∀ (r1 r2 : List (String × ℚ)) (mode : String),
        (∀ k, rowGet r1 k = rowGet r2 k) →
          generate_reason r1 mode = generate_reason r2 mode) ∧
    (∀ (r : List (String × ℚ)) (mode : String),
        generate_reason r mode
            = String.intercalate " + " ((reasonList r mode).take 4)
          ∧ ((reasonList r mode).take 4).length ≤ 4) ∧
    (∀ r : List (String × ℚ),
        ¬(rowGet r "call_duration" < 5) → ¬(rowGet r "tower_switch_rate" > 0.6) →
        ¬(rowGet r "repeated_short_calls_last_1h" > 3) →
        ¬(rowGet r "distinct_callees_last_24h" > 50) →
        ¬(rowGet r "is_international" = 1) → ¬(rowGet r "call_cost" > 200) →
        ¬(rowGet r "tower_switch_rate" > 0.9) →
          generate_reason r "cdr" = "Normal call pattern detected") ∧
    reasonList exampleCdrRow "cdr"
        = ["Very short call duration pattern",
           "High tower switching frequency detected",
           "Repeated short-duration calls within an hour",
           "Abnormally high number of distinct callees",
           "Extreme cell tower switching, potential SIM-box activity"] ∧
    generate_reason exampleCdrRow "cdr"
        = "Very short call duration pattern + High tower switching frequency detected + Repeated short-duration calls within an hour + Abnormally high number of distinct callees" := by
  refine ⟨?_, ?_, ?_, by with_unfolding_all decide, by with_unfolding_all decide⟩
  · intro r1 r2 mode h
    simp only [generate_reason, reasonList, upiReasons, cdrReasons, h]
  · intro r mode
    refine ⟨rfl, ?_⟩
    rw [List.length_take]
    exact min_le_left 4 _
  · intro r h1 h2 h3 h4 h5 h6 h7
    simp only [generate_reason, reasonList, cdrReasons]
    rw [if_neg (by decide : ¬("cdr" = "upi")), if_neg h1, if_neg h2, if_neg h3,
      if_neg h4, if_neg h5, if_neg h6, if_neg h7]
    rfl

/-- Witness for C6 at a concrete no-anomaly CDR row: the fallback clause. -/
theorem generate_reason_first_four_witness :
    generate_reason [("call_duration", (10 : ℚ))] "cdr"
      = "Normal call pattern detected" := by
  refine generate_reason_first_four.2.2.1 [("call_duration", (10 : ℚ))]
    ?_ ?_ ?_ ?_ ?_ ?_ ?_
  all_goals with_unfolding_all decide

/-- C7: `prepare_upi_features` errors exactly when the canonical schema
file feature_order.yaml is absent, while the CDR reconstructor never raises
for a missing schema — its schema is inline and every missing or
non-numeric cell of a declared numeric column is coerced to that column's
default 0.0. -/
theorem schema_errors :
    (∀ (cols : List String) (schema : Option (List String)),
        (∃ e, prepare_upi_features cols schema = Except.error e)
          ↔ schema = none) ∧
    (∀ r : List (String × Val), ∀ cd ∈ cdrNumericCols,
        (getCol r cd.1 = none ∨ (∃ s, getCol r cd.1 = some (Val.str s))
            ∨ getCol r cd.1 = some Val.na) →
          getCol (cdrRow r) cd.1 = some (Val.num cd.2)) := by
  constructor
  · intro cols schema
    cases schema with
    | none => exact ⟨fun _ => rfl, fun _ => ⟨"❌ feature_order.yaml not found", rfl⟩⟩
    | some order =>
      constructor
      · rintro ⟨e, he⟩
        cases he
      · intro h
        cases h
  · intro r cd hcd hbad
    have hco : coerceNum (getCol r cd.1) 0 = 0 := by
      rcases hbad with h | ⟨s, h⟩ | h <;> rw [h] <;> rfl
    simp only [cdrNumericCols, List.mem_cons, List.not_mem_nil, or_false] at hcd
    rcases hcd with rfl | rfl | rfl | rfl | rfl | rfl | rfl
    · rw [show getCol (cdrRow r) "call_duration"
          = some (Val.num (coerceNum (getCol r "call_duration") 0)) from rfl, hco]
    · rw [show getCol (cdrRow r) "call_cost"
          = some (Val.num (coerceNum (getCol r "call_cost") 0)) from rfl, hco]
    · rw [show getCol (cdrRow r) "cost_per_sec"
          = some (Val.num (coerceNum (getCol r "cost_per_sec") 0)) from rfl, hco]
    · rw [show getCol (cdrRow r) "call_hour"
          = some (Val.num (clip 0 23 (coerceNum (getCol r "call_hour") 0))) from rfl,
        hco]
      norm_num [clip]
    · rw [show getCol (cdrRow r) "distinct_callees_last_24h"
          = some (Val.num (coerceNum (getCol r "distinct_callees_last_24h") 0)) from rfl,
        hco]
    · rw [show getCol (cdrRow r) "tower_switch_rate"
          = some (Val.num (coerceNum (getCol r "tower_switch_rate") 0)) from rfl, hco]
    · rw [show getCol (cdrRow r) "repeated_short_calls_last_1h"
          = some (Val.num (coerceNum (getCol r "repeated_short_calls_last_1h") 0)) from rfl,
        hco]

/-- Witness for C7: a missing schema file raises for UPI, and a non-numeric
call_duration cell is coerced to 0.0 for CDR. -/
theorem schema_errors_witness :
    (∃ e, prepare_upi_features ["amount"] none = Except.error e)
      ∧ getCol (cdrRow [("call_duration", Val.str "oops")]) "call_duration"
          = some (Val.num 0) :=
  ⟨(schema_errors.1 ["amount"] none).mpr rfl,
   schema_errors.2 [("call_duration", Val.str "oops")] ("call_duration", 0)
     (by with_unfolding_all decide) (Or.inr (Or.inl ⟨"oops", rfl⟩))⟩

/-- C10: the four CDR call-type indicators are computed solely from the
cleaned call_type value — input columns already named type_VoIP etc. are
ignored — so re-applying the reconstructor to its own output (which has no
call_type column) zeroes all four indicators: reconstruction is not
value-level idempotent on them. -/
theorem cdr_indicators_from_call_type :
    (∀ r : List (String × Val),
        getCol (cdrRow r) "type_VoIP"
            = some (Val.num (if cleanCallType r = "voip" then 1 else 0))
          ∧ getCol (cdrRow r) "type_international"
              = some (Val.num (if cleanCallType r = "international" then 1 else 0))
          ∧ getCol (cdrRow r) "type_roaming"
              = some (Val.num (if cleanCallType r = "roaming" then 1 else 0))
          ∧ getCol (cdrRow r) "type_voice"
              = some (Val.num (if cleanCallType r = "voice" then 1 else 0))) ∧
    (∀ r1 r2 : List (String × Val),
        getCol r1 "call_type" = getCol r2 "call_type" →
          ∀ c ∈ ["type_VoIP", "type_international", "type_roaming", "type_voice"],
            getCol (cdrRow r1) c = getCol (cdrRow r2) c) ∧
    (∀ df : DF, ∀ r ∈ (prepare_cdr_features (prepare_cdr_features df)).rows,
        ∀ c ∈ ["type_VoIP", "type_international", "type_roaming", "type_voice"],
          getCol r c = some (Val.num 0)) ∧
    getCol (cdrRow [("call_type", Val.str "VoIP")]) "type_VoIP"
        = some (Val.num 1)
      ∧ getCol (cdrRow (cdrRow [("call_type", Val.str "VoIP")])) "type_VoIP"
          = some (Val.num 0) := by
  have ha : ∀ r : List (String × Val),
      getCol (cdrRow r) "type_VoIP"
          = some (Val.num (if cleanCallType r = "voip" then 1 else 0))
        ∧ getCol (cdrRow r) "type_international"
            = some (Val.num (if cleanCallType r = "international" then 1 else 0))
        ∧ getCol (cdrRow r) "type_roaming"
            = some (Val.num (if cleanCallType r = "roaming" then 1 else 0))
        ∧ getCol (cdrRow r) "type_voice"
            = some (Val.num (if cleanCallType r = "voice" then 1 else 0)) :=
    fun r => ⟨rfl, rfl, rfl, rfl⟩
  refine ⟨ha, ?_, ?_, by with_unfolding_all decide, by with_unfolding_all decide⟩
  · intro r1 r2 h c hc
    have hclean : cleanCallType r1 = cleanCallType r2 := by
      unfold cleanCallType
      rw [h]
    simp only [List.mem_cons, List.not_mem_nil, or_false] at hc
    rcases hc with rfl | rfl | rfl | rfl
    · rw [(ha r1).1, (ha r2).1, hclean]
    · rw [(ha r1).2.1, (ha r2).2.1, hclean]
    · rw [(ha r1).2.2.1, (ha r2).2.2.1, hclean]
    · rw [(ha r1).2.2.2, (ha r2).2.2.2, hclean]
  · intro df r hr c hc
    simp only [prepare_cdr_features] at hr
    rcases List.mem_map.mp hr with ⟨r1, hr1, rfl⟩
    rcases List.mem_map.mp hr1 with ⟨r0, _, rfl⟩
    have hclean : cleanCallType (cdrRow r0) = "" := by with_unfolding_all rfl
    simp only [List.mem_cons, List.not_mem_nil, or_false] at hc
    rcases hc with rfl | rfl | rfl | rfl
    · rw [(ha (cdrRow r0)).1, hclean]
      with_unfolding_all decide
    · rw [(ha (cdrRow r0)).2.1, hclean]
      with_unfolding_all decide
    · rw [(ha (cdrRow r0)).2.2.1, hclean]
      with_unfolding_all decide
    · rw [(ha (cdrRow r0)).2.2.2, hclean]
      with_unfolding_all decide


/-- Witness for C10: an input column named type_VoIP is ignored — two rows
agreeing on call_type get identical indicators. -/
theorem cdr_indicators_from_call_type_witness :
    getCol (cdrRow [("call_type", Val.str "voice"), ("type_VoIP", Val.num 1)])
        "type_VoIP"
      = getCol (cdrRow [("call_type", Val.str "voice")]) "type_VoIP" :=
  cdr_indicators_from_call_type.2.1 _ _ rfl "type_VoIP" (by decide)

/-! ## Column-pipeline lemmas for the UPI reconstructor -/

lemma mem_addCol_iff (cols : List String) (c x : String) :
    x ∈ addCol cols c ↔ x ∈ cols ∨ x = c := by
  unfold addCol
  by_cases h : c ∈ cols
  · rw [if_pos h]
    constructor
    · exact Or.inl
    · rintro (hx | rfl)
      exacts [hx, h]
  · rw [if_neg h]
    simp [List.mem_append]

lemma addCol_nodup {cols : List String} (h : cols.Nodup) (c : String) :
    (addCol cols c).Nodup := by
  unfold addCol
  by_cases hc : c ∈ cols
  · rwa [if_pos hc]
  · rw [if_neg hc]
    refine h.append (List.nodup_singleton c) ?_
    intro x hx hxc
    rw [List.mem_singleton] at hxc
    subst hxc
    exact hc hx

lemma foldl_addCol_nodup {cols : List String} (h : cols.Nodup) (l : List String) :
    (l.foldl addCol cols).Nodup := by
  induction l generalizing cols with
  | nil => exact h
  | cons c t ih => exact ih (addCol_nodup h c)

lemma mem_foldl_addCol_iff (l cols : List String) (x : String) :
    x ∈ l.foldl addCol cols ↔ x ∈ cols ∨ x ∈ l := by
  induction l generalizing cols with
  | nil => simp
  | cons c t ih =>
    rw [List.foldl_cons, ih, mem_addCol_iff, List.mem_cons]
    tauto

lemma applyRule_nodup {cols : List String} (h : cols.Nodup)
    (rule : List String × String) : (applyRule cols rule).Nodup := by
  unfold applyRule
  split
  · exact addCol_nodup h _
  · exact h

lemma mem_applyRule (cols : List String) (rule : List String × String)
    (x : String) (hx : x ∈ applyRule cols rule) : x ∈ cols ∨ x = rule.2 := by
  unfold applyRule at hx
  split at hx
  · exact (mem_addCol_iff cols rule.2 x).mp hx
  · exact Or.inl hx

lemma foldl_applyRule_nodup {cols : List String} (h : cols.Nodup)
    (rules : List (List String × String)) :
    (rules.foldl applyRule cols).Nodup := by
  induction rules generalizing cols with
  | nil => exact h
  | cons rule t ih => exact ih (applyRule_nodup h rule)

lemma mem_foldl_applyRule (rules : List (List String × String))
    (cols : List String) (x : String) (hx : x ∈ rules.foldl applyRule cols) :
    x ∈ cols ∨ x ∈ rules.map Prod.snd := by
  induction rules generalizing cols with
  | nil => exact Or.inl hx
  | cons rule t ih =>
    rw [List.foldl_cons] at hx
    rcases ih (applyRule cols rule) hx with h | h
    · rcases mem_applyRule cols rule x h with h2 | h2
      · exact Or.inl h2
      · exact Or.inr (by rw [List.map_cons, h2]; exact List.mem_cons_self _ _)
    · exact Or.inr (List.mem_cons_of_mem _ h)

lemma selectCols_eq_of_count_one (cols sel : List String)
    (h : ∀ c ∈ sel, cols.count c = 1) : selectCols cols sel = sel := by
  induction sel with
  | nil => rfl
  | cons c t ih =>
    unfold selectCols
    rw [List.map_cons, List.flatten_cons, h c (List.mem_cons_self c t),
      List.replicate_one]
    exact congrArg (c :: ·) (ih fun d hd => h d (List.mem_cons_of_mem c hd))

/-- Central column lemma: for an input whose column names are distinct and
never mix the raw "type" column with an already-present type indicator, the
UPI pipeline emits exactly the training order. -/
lemma upiCols_eq_order (cols order : List String) (hnd : cols.Nodup)
    (hty : "type" ∈ cols → ∀ t ∈ expected_types, t ∉ cols) :
    upiCols cols order = order := by
  unfold upiCols
  have h1 : (dropCols cols ["isFraud", "isFlaggedFraud"]).Nodup := hnd.filter _
  have h1m : ∀ x, x ∈ dropCols cols ["isFraud", "isFlaggedFraud"] → x ∈ cols :=
    fun x hx => (List.mem_filter.mp hx).1
  set c1 := dropCols cols ["isFraud", "isFlaggedFraud"] with hc1
  have h2 : (derivedRules.foldl applyRule c1).Nodup := foldl_applyRule_nodup h1 _
  have h2m : ∀ x, x ∈ derivedRules.foldl applyRule c1 →
      x ∈ cols ∨ x ∈ derivedRules.map Prod.snd :=
    fun x hx => (mem_foldl_applyRule _ _ _ hx).imp_left (h1m x)
  set c2 := derivedRules.foldl applyRule c1 with hc2
  have h3 : (typeDummyStep c2).Nodup := by
    unfold typeDummyStep
    split
    · next hmem =>
        have htype : "type" ∈ cols := by
          rcases h2m _ hmem with h | h
          · exact h
          · exact absurd h (by decide)
        refine h2.append (by decide) ?_
        intro x hx hxe
        rcases h2m x hx with h | h
        · exact hty htype x hxe h
        · exact (by decide : ∀ y ∈ derivedRules.map Prod.snd,
            y ∉ expected_types) x h hxe
    · exact foldl_addCol_nodup h2 _
  set c3 := typeDummyStep c2 with hc3
  have h4 : (placeholder_cols.foldl addCol c3).Nodup := foldl_addCol_nodup h3 _
  set c4 := placeholder_cols.foldl addCol c3 with hc4
  have h5 : (dropCols c4 ["step", "nameOrig", "nameDest", "type"]).Nodup :=
    h4.filter _
  set c5 := dropCols c4 ["step", "nameOrig", "nameDest", "type"] with hc5
  have h6 : (order.foldl addCol c5).Nodup := foldl_addCol_nodup h5 _
  have h6m : ∀ x ∈ order, x ∈ order.foldl addCol c5 :=
    fun x hx => (mem_foldl_addCol_iff _ _ _).mpr (Or.inr hx)
  exact selectCols_eq_of_count_one _ _
    (fun c hc => List.count_eq_one_of_mem h6 (h6m c hc))

/-- A plausible content for the externally loaded upi_features list of
feature_order.yaml: the raw and derived numeric features, the five type
indicators and the placeholder features. The file itself is deployment
configuration outside the repository, so theorems about it quantify over
the list; this sample only instantiates counterexamples and witnesses. -/
def upiSampleOrder : List String :=
  ["amount", "amount_log", "oldbalanceOrg", "newbalanceOrig", "oldbalanceDest",
   "newbalanceDest", "orig_balance_change", "dest_balance_change",
   "balance_mismatch_orig", "balance_mismatch_dest", "orig_zero_but_amount",
   "dest_zero_but_amount", "orig_balance_ratio", "dest_balance_ratio"]
  ++ expected_types ++ placeholder_cols

/-- A raw PaySim-shaped upload that also carries a pre-engineered
type_CASH_IN indicator column next to the raw "type" column. -/
def upiClashCols : List String :=
  ["step", "type", "amount", "nameOrig", "oldbalanceOrg", "newbalanceOrig",
   "nameDest", "oldbalanceDest", "newbalanceDest", "type_CASH_IN"]

/-- C2 counterexample: an input carrying both the raw "type" column and an
already-present type_CASH_IN indicator makes the dummy concatenation
duplicate that indicator, and the final `df[training_order]` selection
keeps both copies — the output column list is not the canonical list. -/
theorem prepare_upi_canonical_cex :
    prepare_upi_features upiClashCols (some upiSampleOrder)
        ≠ Except.ok upiSampleOrder
      ∧ (upiCols upiClashCols upiSampleOrder).count "type_CASH_IN" = 2 := by
  constructor
  · intro h
    rw [show prepare_upi_features upiClashCols (some upiSampleOrder)
        = Except.ok (upiCols upiClashCols upiSampleOrder) from rfl] at h
    injection h with h2
    exact absurd h2 (by with_unfolding_all decide)
  · with_unfolding_all decide

/-- C2 as amended: for every raw input table with distinct column names
that does not carry a type indicator column alongside the raw "type"
column, the UPI reconstructor returns exactly the externally loaded
training order (assumed duplicate-free), and the CDR reconstructor always
returns exactly the eleven fixed columns in order. -/
theorem prepare_features_canonical_cols :
    (∀ cols order : List String, cols.Nodup →
        ("type" ∈ cols → ∀ t ∈ expected_types, t ∉ cols) →
          prepare_upi_features cols (some order) = Except.ok order) ∧
    (∀ df : DF, (prepare_cdr_features df).cols = cdrFinalCols) :=
  ⟨fun cols order h1 h3 =>
    congrArg Except.ok (upiCols_eq_order cols order h1 h3),
   fun _ => rfl⟩

/-- Witness for C2 (amended) on a concrete raw PaySim-shaped upload. -/
theorem prepare_features_canonical_cols_witness :
    prepare_upi_features
        ["step", "type", "amount", "nameOrig", "oldbalanceOrg", "newbalanceOrig",
         "nameDest", "oldbalanceDest", "newbalanceDest"]
        (some upiSampleOrder)
      = Except.ok upiSampleOrder :=
  prepare_features_canonical_cols.1 _ upiSampleOrder (by decide) (by decide)

/-- C9: reconstruction is idempotent at the column level — re-running
either reconstructor on its own output leaves the column list unchanged
(for UPI, provided the schema list is duplicate-free and does not contain
the dropped raw "type" column, and the first input is well-formed as in the
canonical-columns theorem). -/
theorem prepare_features_idempotent_cols :
    (∀ cols order : List String, cols.Nodup → order.Nodup →
        ("type" ∈ cols → ∀ t ∈ expected_types, t ∉ cols) → "type" ∉ order →
          upiCols (upiCols cols order) order = upiCols cols order) ∧
    (∀ df : DF, (prepare_cdr_features (prepare_cdr_features df)).cols
        = (prepare_cdr_features df).cols) := by
  constructor
  · intro cols order h1 h2 h3 h4
    rw [upiCols_eq_order cols order h1 h3,
      upiCols_eq_order order order h2 (fun ht => absurd ht h4)]
  · intro df
    rfl

/-- Witness for C9 on a concrete input and schema list. -/
theorem prepare_features_idempotent_cols_witness :
    upiCols (upiCols ["type", "amount"] upiSampleOrder) upiSampleOrder
      = upiCols ["type", "amount"] upiSampleOrder :=
  prepare_features_idempotent_cols.1 ["type", "amount"] upiSampleOrder
    (by decide) (by decide) (by decide) (by decide)

end UpiCallFraud
